import Mathlib

/-!
Shallow embedding of `aio_snowplow_tracker/emitters.py` (the buffered
emitter of the aio-snowplow-python-tracker repository).

Modelling conventions:
* A Python payload dictionary is an ordered association list
  `List (String × Value)`; the scalar values the emitter handles are
  modelled by the `Value` type (strings and integers).
* Python object identity (payload dictionaries are mutated in place) is
  modelled by an explicit heap: a `store : List Payload` of dictionary
  contents, addressed by `Nat` references.  Mutating a dictionary in
  place is `List.set` on the store; creating a fresh dictionary appends
  to the store.
* Python exceptions are modelled by the `Except` monad: the raw HTTP
  call either returns a status code or raises a client error, and
  `http_post`/`http_get` catch the client error exactly as the source's
  `try`/`except aiohttp.ClientError` does.
* The transport (the aiohttp session) is an oracle: a list of responses
  consumed one per request.  `time.time()` is a `now : Nat` parameter
  (whole seconds since epoch, matching `int(time.time())`).
* The `asyncio.Lock` serialises `input` and `flush`; in this sequential
  embedding each operation is one atomic step, which is exactly the
  granularity the lock enforces.
-/

namespace Snowplow

/-- A scalar payload value: the emitter only ever inspects values via
`str(...)`, so strings and integers cover the cases the claims need. -/
inductive Value where
  | vStr : String → Value
  | vInt : Int → Value
deriving Repr, DecidableEq

/-- A Python payload dictionary: an insertion-ordered association list. -/
abbrev Payload := List (String × Value)

/-- Python `str(value)` for the scalar values modelled. -/
def pyStr : Value → String
  | .vStr s => s
  | .vInt n => toString n

/-- Length of Python `repr(value)` (for unescaped strings `repr` adds the
two surrounding quotes; integers print as their digits). -/
def pyReprLen : Value → Nat
  | .vStr s => s.length + 2
  | .vInt n => (toString n).length

/-- Length of Python `str(payload)` for a dict: two braces, each entry
rendered as quoted key, a colon-space, and the value repr, entries
joined by a two-character separator.  Models `len(str(payload))` from
`Emitter.input` for payloads whose strings need no escaping. -/
def pyDictStrLen (d : Payload) : Nat :=
  2 + (if d.isEmpty then 0
       else (d.map (fun kv => kv.1.length + 2 + 2 + pyReprLen kv.2)).sum
            + 2 * (d.length - 1))

/-- Python dict lookup `d[k]` (first matching key of the ordered dict). -/
def dictLookup (d : Payload) (k : String) : Option Value :=
  (d.find? (fun kv => kv.1 = k)).map (fun kv => kv.2)

/-- Python `d.update({k: v})`: replace the value at `k` in place if the
key is present, otherwise append the new binding at the end. -/
def dictUpdate (d : Payload) (k : String) (v : Value) : Payload :=
  if d.any (fun kv => kv.1 = k) then
    d.map (fun kv => if kv.1 = k then (k, v) else kv)
  else d ++ [(k, v)]

/-- The dict comprehension `{key: str(payload[key]) for key in payload}`
from `Emitter.input` (POST mode): a fresh dictionary with every value
stringified. -/
def stringifyDict (d : Payload) : Payload :=
  d.map (fun kv => (kv.1, Value.vStr (pyStr kv.2)))

/-- Dereference a payload reference in the heap (`store`).  Out-of-range
references never arise in the source; they default to the empty dict. -/
def derefPayload (store : List Payload) (r : Nat) : Payload :=
  store.getD r []

/-! ## Endpoint builder: `Emitter.as_collector_uri` -/

/-- `Emitter.as_collector_uri`: raises `ValueError` on an empty endpoint,
otherwise builds `protocol://endpoint[:port]path` with path `/i` for GET
and `/com.snowplowanalytics.snowplow/tp2` otherwise. -/
def as_collector_uri (endpoint : String) (protocol : String)
    (port : Option Nat) (method : String) : Except String String :=
  if endpoint.length < 1 then
    .error "No endpoint provided."
  else
    let path := if method = "get" then "/i"
                else "/com.snowplowanalytics.snowplow/tp2"
    match port with
    | none => .ok (protocol ++ "://" ++ endpoint ++ path)
    | some p => .ok (protocol ++ "://" ++ endpoint ++ ":" ++ toString p ++ path)

/-! ## HTTP transport: `Emitter.http_post`, `Emitter.http_get`,
`Emitter.is_good_status_code` -/

/-- One response of the transport oracle: the awaited aiohttp call either
yields a status code or raises a client error. -/
inductive TResp where
  | status : Nat → TResp
  | clientError : TResp
deriving Repr, DecidableEq

/-- A Python exception that can escape the awaited HTTP call
(`aiohttp.ClientError` covers connection failures and timeouts). -/
inductive PyExn where
  | clientError : PyExn
deriving Repr, DecidableEq

/-- The raw awaited request: returns the status code or raises. -/
def rawResponse : TResp → Except PyExn Nat
  | .status c => .ok c
  | .clientError => .error .clientError

/-- `Emitter.is_good_status_code`: `200 <= status_code < 400`. -/
def is_good_status_code (c : Nat) : Bool :=
  200 ≤ c && c < 400

/-- Pop the next transport response; an exhausted oracle behaves as a
client error (the session cannot produce a status). -/
def nextResp : List TResp → TResp × List TResp
  | [] => (.clientError, [])
  | t :: ts => (t, ts)

/-- `Emitter.http_post` (the outcome-relevant part): awaits one POST
request, classifies the status with `is_good_status_code`, and catches
`aiohttp.ClientError`, in which case `post_succeeded` stays `False`.
Returns the flag and the remaining oracle. -/
def http_post (tr : List TResp) : Except PyExn (Bool × List TResp) :=
  let (t, tr2) := nextResp tr
  match rawResponse t with
  | .ok c => .ok (is_good_status_code c, tr2)
  | .error .clientError => .ok (false, tr2)

/-- `Emitter.http_get`: same shape as `http_post`; the payload only goes
into the request, not into the classification. -/
def http_get (tr : List TResp) : Except PyExn (Bool × List TResp) :=
  let (t, tr2) := nextResp tr
  match rawResponse t with
  | .ok c => .ok (is_good_status_code c, tr2)
  | .error .clientError => .ok (false, tr2)

/-- Whether a transport response classifies as a success. -/
def respOk : TResp → Bool
  | .status c => is_good_status_code c
  | .clientError => false

/-! ## Serialization (POST body) -/

def PAYLOAD_DATA_SCHEMA : String :=
  "iglu:com.snowplowanalytics.snowplow/payload_data/jsonschema/1-0-4"

/-- JSON rendering of a scalar value. -/
def jsonValue : Value → String
  | .vStr s => "\"" ++ s ++ "\""
  | .vInt n => toString n

/-- JSON rendering of a payload dictionary. -/
def jsonDict (d : Payload) : String :=
  "\x7b" ++ String.intercalate ", "
    (d.map (fun kv => "\"" ++ kv.1 ++ "\": " ++ jsonValue kv.2)) ++ "\x7d"

/-- JSON rendering of a list of payload dictionaries. -/
def jsonList (ds : List Payload) : String :=
  "[" ++ String.intercalate ", " (ds.map jsonDict) ++ "]"

/-- Modelled from the spec: `SelfDescribingJson(schema, data).to_string()`
(the class lives outside `emitters.py` and is not under `src/`); the
spec gives the wire format as the JSON body
`{"schema": <schema>, "data": [ <event payload>, ... ]}`. -/
def selfDescribingJsonToString (schema : String) (data : List Payload) : String :=
  "\x7b\"schema\": \"" ++ schema ++ "\", \"data\": " ++ jsonList data ++ "\x7d"

/-! ## Emitter state and configuration -/

/-- The immutable part of an `Emitter` after `__init__`: method, the two
flush thresholds, and whether the optional callbacks are registered. -/
structure Config where
  method : String
  bufferSize : Nat
  byteLimit : Option Nat
  hasOnSuccess : Bool
  hasOnFailure : Bool
deriving Repr, DecidableEq

/-- The mutable part of an `Emitter`, plus the heap of payload
dictionaries (`store`): `buffer` holds references into the store, and
`bytesQueued` models `self.bytes_queued` (`none` = Python `None`). -/
structure EmitterState where
  store : List Payload
  buffer : List Nat
  bytesQueued : Option Nat
deriving Repr, DecidableEq

/-- A wire request issued during a flush. -/
inductive Request where
  | post : String → Request
  | get : Payload → Request
deriving Repr, DecidableEq

/-- The second argument handed to the failure callback: Python is
dynamically typed, so it is either a string (what the docstring and spec
promise for POST) or a list of payload dictionaries. -/
inductive FailureArg where
  | strForm : String → FailureArg
  | eventList : List Payload → FailureArg
deriving Repr, DecidableEq

/-- Observable side effects of an operation: the wire requests issued
and the callback invocations, in order. -/
structure Effects where
  requests : List Request
  successCalls : List (List Payload)
  failureCalls : List (Nat × FailureArg)
deriving Repr, DecidableEq

/-- No observable effects. -/
def noEffects : Effects :=
  { requests := [], successCalls := [], failureCalls := [] }

/-! ## `Emitter.attach_sent_timestamp` -/

/-- The value stored under `stm`: `str(int(time.time()) * 1000)` — the
whole-second clock reading times 1000, rendered as a string. -/
def stmValue (now : Nat) : Value :=
  Value.vStr (toString (now * 1000))

/-- One iteration of `attach_sent_timestamp`: mutate the dictionary at
reference `r` in place with `e.update({'stm': ...})`. -/
def attachOne (now : Nat) (store : List Payload) (r : Nat) : List Payload :=
  store.set r (dictUpdate (derefPayload store r) "stm" (stmValue now))

/-- `Emitter.attach_sent_timestamp`: mutate every event of the batch in
place, attaching the send timestamp. -/
def attach_sent_timestamp (now : Nat) (store : List Payload)
    (evts : List Nat) : List Payload :=
  evts.foldl (attachOne now) store

/-! ## `Emitter.send_events` and the flush/input operations -/

/-- The GET loop of `send_events`: one `http_get` per event, in batch
order, partitioning events into successes and failures and recording the
requests.  It never exits early: every event is attempted. -/
def getLoop (store : List Payload) (evts : List Nat) (tr : List TResp) :
    Except PyExn (List Nat × List Nat × List TResp × List Request) :=
  match evts with
  | [] => .ok ([], [], tr, [])
  | evt :: rest =>
    let p := derefPayload store evt
    match http_get tr with
    | .error e => .error e
    | .ok (ok1, tr2) =>
      match getLoop store rest tr2 with
      | .error e => .error e
      | .ok (succ, fail, tr3, reqs) =>
        .ok (if ok1 then evt :: succ else succ,
             if ok1 then fail else evt :: fail,
             tr3, Request.get p :: reqs)

/-- Callback routing at the end of `send_events`: `on_success` is called
with the successful payloads when registered and some event succeeded;
`on_failure` is called with `(len(success_events), failure_events)` when
registered and some event failed.  Note the source passes the *list*
`failure_events` in both modes. -/
def routeCallbacks (cfg : Config) (store : List Payload)
    (succ fail : List Nat) (reqs : List Request) : Effects :=
  { requests := reqs
    successCalls :=
      if cfg.hasOnSuccess ∧ 0 < succ.length then
        [succ.map (derefPayload store)] else []
    failureCalls :=
      if cfg.hasOnFailure ∧ 0 < fail.length then
        [(succ.length, FailureArg.eventList (fail.map (derefPayload store)))]
      else [] }

/-- `Emitter.send_events`: on a non-empty batch, attach the send
timestamps, dispatch by method (one POST for the whole batch, or one GET
per event), and route the outcome to the callbacks; on an empty batch,
log only. -/
def send_events (cfg : Config) (now : Nat) (store : List Payload)
    (evts : List Nat) (tr : List TResp) :
    Except PyExn (List Payload × List TResp × Effects) :=
  if 0 < evts.length then
    let store2 := attach_sent_timestamp now store evts
    if cfg.method = "post" then
      let data := selfDescribingJsonToString PAYLOAD_DATA_SCHEMA
        (evts.map (derefPayload store2))
      match http_post tr with
      | .error e => .error e
      | .ok (ok1, tr2) =>
        let succ := if ok1 then evts else []
        let fail := if ok1 then [] else evts
        .ok (store2, tr2, routeCallbacks cfg store2 succ fail [Request.post data])
    else if cfg.method = "get" then
      match getLoop store2 evts tr with
      | .error e => .error e
      | .ok (succ, fail, tr2, reqs) =>
        .ok (store2, tr2, routeCallbacks cfg store2 succ fail reqs)
    else
      .ok (store2, tr, routeCallbacks cfg store2 [] [] [])
  else
    .ok (store, tr, noEffects)

/-- `Emitter._flush_unsafe`: send the buffered events, then reset the
buffer to `[]` and `bytes_queued` to `0` when it is tracked. -/
def flush_unsafe (cfg : Config) (now : Nat) (st : EmitterState)
    (tr : List TResp) : Except PyExn (EmitterState × List TResp × Effects) :=
  match send_events cfg now st.store st.buffer tr with
  | .error e => .error e
  | .ok (store2, tr2, eff) =>
    .ok ({ store := store2, buffer := [],
           bytesQueued := st.bytesQueued.map (fun _ => 0) }, tr2, eff)

/-- `Emitter.flush`: acquire the lock and run `_flush_unsafe`; the lock
is the atomicity of this one step. -/
def flush (cfg : Config) (now : Nat) (st : EmitterState)
    (tr : List TResp) : Except PyExn (EmitterState × List TResp × Effects) :=
  flush_unsafe cfg now st tr

/-- `Emitter.reached_limit`: the flush predicate.  With no byte limit,
only the count threshold applies; otherwise `(bytes_queued or 0)` is
compared against the byte limit as well. -/
def reached_limit (cfg : Config) (st : EmitterState) : Bool :=
  match cfg.byteLimit with
  | none => cfg.bufferSize ≤ st.buffer.length
  | some bl => bl ≤ st.bytesQueued.getD 0 || cfg.bufferSize ≤ st.buffer.length

/-- `Emitter.input`: under the lock, add the payload's string length to
the byte count when tracked, buffer the payload (a stringified fresh
copy in POST mode, the caller's dictionary itself in GET mode), and
flush if a threshold is reached. -/
def input (cfg : Config) (now : Nat) (st : EmitterState) (p : Nat)
    (tr : List TResp) : Except PyExn (EmitterState × List TResp × Effects) :=
  let bytes2 := st.bytesQueued.map
    (fun b => b + pyDictStrLen (derefPayload st.store p))
  let (store2, buffer2) :=
    if cfg.method = "post" then
      (st.store ++ [stringifyDict (derefPayload st.store p)],
       st.buffer ++ [st.store.length])
    else
      (st.store, st.buffer ++ [p])
  let st2 : EmitterState :=
    { store := store2, buffer := buffer2, bytesQueued := bytes2 }
  if reached_limit cfg st2 then
    flush_unsafe cfg now st2 tr
  else
    .ok (st2, tr, noEffects)

/-- `Emitter.set_flush_timer`: when `flush_now` is set, perform one
flush (the timer tick re-invokes it with `flush_now = True`); the timer
handle itself is scheduling state outside this embedding. -/
def set_flush_timer (cfg : Config) (now : Nat) (flushNow : Bool)
    (st : EmitterState) (tr : List TResp) :
    Except PyExn (EmitterState × List TResp × Effects) :=
  if flushNow then flush cfg now st tr
  else .ok (st, tr, noEffects)

/-! ## Helper lemmas -/

theorem string_length_eq_zero_iff (s : String) : s.length = 0 ↔ s = "" := by
  cases s with
  | mk d =>
    simp [String.length]
    constructor
    · intro h; subst h; rfl
    · intro h
      have hd : d = String.data { data := d } := rfl
      rw [h] at hd
      simpa using hd.symm

theorem http_post_eq (tr : List TResp) :
    http_post tr = .ok (respOk (nextResp tr).1, (nextResp tr).2) := by
  cases tr with
  | nil => rfl
  | cons t ts => cases t <;> rfl

theorem http_get_eq (tr : List TResp) :
    http_get tr = .ok (respOk (nextResp tr).1, (nextResp tr).2) := by
  cases tr with
  | nil => rfl
  | cons t ts => cases t <;> rfl

/-- The GET-mode successes: events paired positionally with a successful
transport response, in batch order. -/
def succRefs (evts : List Nat) (tr : List TResp) : List Nat :=
  ((evts.zip tr).filter (fun x => respOk x.2)).map Prod.fst

/-- The GET-mode failures: events paired positionally with a failing
transport response, in batch order. -/
def failRefs (evts : List Nat) (tr : List TResp) : List Nat :=
  ((evts.zip tr).filter (fun x => ! respOk x.2)).map Prod.fst

theorem getLoop_eq (store : List Payload) (evts : List Nat) :
    ∀ tr : List TResp, tr.length = evts.length →
      getLoop store evts tr
        = .ok (succRefs evts tr, failRefs evts tr, [],
               evts.map (fun r => Request.get (derefPayload store r))) := by
  induction evts with
  | nil =>
    intro tr h
    have : tr = [] := List.length_eq_zero.mp h
    subst this
    rfl
  | cons evt rest ih =>
    intro tr h
    cases tr with
    | nil => simp at h
    | cons t ts =>
      have h2 : ts.length = rest.length := by simpa using h
      simp only [getLoop, http_get_eq, nextResp, ih ts h2, succRefs, failRefs,
        List.zip_cons_cons, List.filter_cons, List.map_cons]
      cases ht : respOk t <;> simp [ht]

theorem getLoop_isOk (store : List Payload) (evts : List Nat) :
    ∀ tr : List TResp, ∃ out, getLoop store evts tr = .ok out := by
  induction evts with
  | nil => intro tr; exact ⟨_, rfl⟩
  | cons evt rest ih =>
    intro tr
    obtain ⟨⟨succ, fail, tr3, reqs⟩, hout⟩ := ih (nextResp tr).2
    cases hq : getLoop store (evt :: rest) tr with
    | ok out => exact ⟨out, rfl⟩
    | error e =>
      simp only [getLoop, http_get_eq, hout] at hq
      exact Except.noConfusion hq

theorem send_events_isOk (cfg : Config) (now : Nat) (store : List Payload)
    (evts : List Nat) (tr : List TResp) :
    ∃ out, send_events cfg now store evts tr = .ok out := by
  cases hq : send_events cfg now store evts tr with
  | ok out => exact ⟨out, rfl⟩
  | error e =>
    exfalso
    by_cases he : 0 < evts.length
    · by_cases hp : cfg.method = "post"
      · simp [send_events, he, hp, http_post_eq] at hq
      · by_cases hg : cfg.method = "get"
        · obtain ⟨⟨succ, fail, tr2, reqs⟩, hout⟩ :=
            getLoop_isOk (attach_sent_timestamp now store evts) evts tr
          simp [send_events, he, hp, hg, hout] at hq
        · simp [send_events, he, hp, hg] at hq
    · simp [send_events, he] at hq

theorem flush_unsafe_isOk (cfg : Config) (now : Nat) (st : EmitterState)
    (tr : List TResp) :
    ∃ out, flush_unsafe cfg now st tr = .ok out := by
  cases hq : flush_unsafe cfg now st tr with
  | ok out => exact ⟨out, rfl⟩
  | error e =>
    exfalso
    obtain ⟨⟨store2, tr2, eff⟩, hout⟩ :=
      send_events_isOk cfg now st.store st.buffer tr
    simp only [ flush_unsafe, hout] at hq
    exact Except.noConfusion hq

theorem flush_isOk (cfg : Config) (now : Nat) (st : EmitterState)
    (tr : List TResp) :
    ∃ out, flush cfg now st tr = .ok out :=
  flush_unsafe_isOk cfg now st tr

theorem input_isOk (cfg : Config) (now : Nat) (st : EmitterState) (p : Nat)
    (tr : List TResp) :
    ∃ out, input cfg now st p tr = .ok out := by
  unfold input
  dsimp only
  split <;> split
  all_goals first
    | exact flush_unsafe_isOk ..
    | exact ⟨_, rfl⟩

theorem flush_unsafe_state (cfg : Config) (now : Nat) (st : EmitterState)
    (tr : List TResp) :
    ∃ store2 tr2 eff, flush_unsafe cfg now st tr
      = .ok ({ store := store2, buffer := [],
               bytesQueued := st.bytesQueued.map (fun _ => 0) }, tr2, eff) := by
  obtain ⟨⟨store2, tr2, eff⟩, hout⟩ :=
    send_events_isOk cfg now st.store st.buffer tr
  exact ⟨store2, tr2, eff, by simp only [ flush_unsafe, hout]⟩

/-- The emitter state just after `input` has appended, before the
threshold check: POST buffers a fresh stringified copy, GET buffers the
caller's dictionary itself, and the byte count grows by the payload's
string length when tracked. -/
def inputAppended (cfg : Config) (st : EmitterState) (p : Nat) : EmitterState :=
  { store := if cfg.method = "post"
             then st.store ++ [stringifyDict (derefPayload st.store p)]
             else st.store
    buffer := if cfg.method = "post"
              then st.buffer ++ [st.store.length]
              else st.buffer ++ [p]
    bytesQueued := st.bytesQueued.map
      (fun b => b + pyDictStrLen (derefPayload st.store p)) }

theorem input_eq (cfg : Config) (now : Nat) (st : EmitterState) (p : Nat)
    (tr : List TResp) :
    input cfg now st p tr
      = if reached_limit cfg (inputAppended cfg st p)
        then flush_unsafe cfg now (inputAppended cfg st p) tr
        else .ok (inputAppended cfg st p, tr, noEffects) := by
  by_cases hp : cfg.method = "post" <;> simp [input, inputAppended, hp]

/-- Both the explicit-flush path and the input-triggered path end in
`_flush_unsafe`, which resets buffer and byte counter together. -/
theorem flush_unsafe_resets (cfg : Config) (now : Nat) (st : EmitterState)
    (tr : List TResp) (st2 : EmitterState) (tr2 : List TResp) (eff : Effects)
    (h : flush_unsafe cfg now st tr = .ok (st2, tr2, eff)) :
    st2.buffer = [] ∧ st2.bytesQueued = st.bytesQueued.map (fun _ => 0) := by
  obtain ⟨store2, tr3, eff2, hout⟩ := flush_unsafe_state cfg now st tr
  rw [hout] at h
  simp only [Except.ok.injEq, Prod.mk.injEq] at h
  obtain ⟨h1, h2, h3⟩ := h
  subst h1
  exact ⟨rfl, rfl⟩

/-- The optional port segment of a collector URI. -/
def portSeg : Option Nat → String
  | none => ""
  | some p => ":" ++ toString p

/-! ## Claims -/

/-- C6: `as_collector_uri` is a pure function returning
`protocol://host[:port]path` with path `/i` for GET and
`/com.snowplowanalytics.snowplow/tp2` for POST, where the port segment
is omitted exactly when no port is given; it fails on an empty host; and
the two concrete examples from the spec evaluate as stated. -/
theorem as_collector_uri_spec (host protocol : String) (port : Option Nat)
    (method : String) (h : host ≠ "") :
    as_collector_uri host protocol port "get"
      = .ok (protocol ++ "://" ++ host ++ portSeg port ++ "/i")
    ∧ as_collector_uri host protocol port "post"
      = .ok (protocol ++ "://" ++ host ++ portSeg port
             ++ "/com.snowplowanalytics.snowplow/tp2")
    ∧ as_collector_uri "" protocol port method = .error "No endpoint provided."
    ∧ as_collector_uri "example.com" "https" (some 443) "post"
      = .ok "https://example.com:443/com.snowplowanalytics.snowplow/tp2"
    ∧ as_collector_uri "example.com" "http" none "get"
      = .ok "http://example.com/i" := by
  have hlen : ¬ host.length < 1 := by
    intro hl
    exact h ((string_length_eq_zero_iff host).mp (Nat.lt_one_iff.mp hl))
  refine ⟨?_, ?_, ?_, rfl, rfl⟩
  · cases port <;> simp [as_collector_uri, hlen, portSeg, String.append_assoc]
  · cases port <;> simp [as_collector_uri, hlen, portSeg, String.append_assoc]
  · simp [as_collector_uri]

/-- Witness for C6 at a concrete host and port. -/
theorem as_collector_uri_spec_witness :
    as_collector_uri "example.com" "http" (some 8080) "get"
      = .ok ("http" ++ "://" ++ "example.com" ++ portSeg (some 8080) ++ "/i") :=
  (as_collector_uri_spec "example.com" "http" (some 8080) "get"
    (by decide)).1

/-- C7: flushing an empty buffer is a no-op up to logging: no HTTP
request is issued, neither callback is invoked, the store and the
transport are untouched, for every emitter configuration. -/
theorem flush_empty_buffer_noop (cfg : Config) (now : Nat) (st : EmitterState)
    (tr : List TResp) (h : st.buffer = []) :
    flush cfg now st tr
      = .ok ({ store := st.store, buffer := [],
               bytesQueued := st.bytesQueued.map (fun _ => 0) }, tr, noEffects) := by
  simp [flush, flush_unsafe, send_events, h]

/-- Witness for C7 on a concrete emitter with an empty buffer. -/
theorem flush_empty_buffer_noop_witness :
    flush ⟨"post", 10, none, true, true⟩ 7
        { store := [[("e", Value.vStr "pv")]], buffer := [], bytesQueued := none } []
      = .ok ({ store := [[("e", Value.vStr "pv")]], buffer := [],
               bytesQueued := none }, [], noEffects) :=
  flush_empty_buffer_noop ⟨"post", 10, none, true, true⟩ 7
    { store := [[("e", Value.vStr "pv")]], buffer := [], bytesQueued := none } [] rfl

theorem set_flush_timer_true (cfg : Config) (now : Nat) (st : EmitterState)
    (tr : List TResp) :
    set_flush_timer cfg now true st tr = flush cfg now st tr := rfl

/-- C8: on every flush — explicit, timer-driven, or triggered by a
threshold crossing inside `input` — the one resulting state update
resets the buffer to empty and the byte counter to zero (when tracked)
together. -/
theorem flush_resets_buffer_and_bytes (cfg : Config) (now : Nat)
    (st : EmitterState) (p : Nat) (tr : List TResp) (st2 st3 st4 : EmitterState)
    (tr2 tr3 tr4 : List TResp) (eff2 eff3 eff4 : Effects) :
    (flush cfg now st tr = .ok (st2, tr2, eff2) →
       st2.buffer = [] ∧ st2.bytesQueued = st.bytesQueued.map (fun _ => 0))
    ∧ (set_flush_timer cfg now true st tr = .ok (st3, tr3, eff3) →
       st3.buffer = [] ∧ st3.bytesQueued = st.bytesQueued.map (fun _ => 0))
    ∧ (input cfg now st p tr = .ok (st4, tr4, eff4) →
       reached_limit cfg (inputAppended cfg st p) = true →
       st4.buffer = [] ∧ st4.bytesQueued = st.bytesQueued.map (fun _ => 0)) := by
  refine ⟨?_, ?_, ?_⟩
  · intro h
    exact flush_unsafe_resets cfg now st tr st2 tr2 eff2 h
  · intro h
    rw [set_flush_timer_true] at h
    exact flush_unsafe_resets cfg now st tr st3 tr3 eff3 h
  · intro h hr
    rw [input_eq, if_pos hr] at h
    have h2 := flush_unsafe_resets cfg now (inputAppended cfg st p) tr st4 tr4 eff4 h
    refine ⟨h2.1, ?_⟩
    rw [h2.2]
    cases hb : st.bytesQueued <;> simp [inputAppended, hb]

/-- Witness for C8 on a concrete explicit flush. -/
theorem flush_resets_buffer_and_bytes_witness :
    ({ store := [], buffer := [], bytesQueued := some 0 } : EmitterState).buffer = []
    ∧ ({ store := [], buffer := [], bytesQueued := some 0 } : EmitterState).bytesQueued
        = (some 5 : Option Nat).map (fun _ => 0) :=
  (flush_resets_buffer_and_bytes ⟨"get", 1, none, false, false⟩ 0
      { store := [], buffer := [], bytesQueued := some 5 } 0 []
      { store := [], buffer := [], bytesQueued := some 0 }
      { store := [], buffer := [], bytesQueued := some 0 }
      { store := [], buffer := [], bytesQueued := some 0 }
      [] [] [] noEffects noEffects noEffects).1 rfl

/-- C10: with `buffer_size ≥ 1`, after any completed `input` or `flush`
the buffer holds strictly fewer than `buffer_size` events: an input that
reaches a threshold flushes within the same locked step, returning the
buffer to empty. -/
theorem buffer_length_lt_buffer_size (cfg : Config) (now : Nat)
    (st : EmitterState) (p : Nat) (tr : List TResp)
    (h1 : 1 ≤ cfg.bufferSize) :
    (∀ st2 tr2 eff, input cfg now st p tr = .ok (st2, tr2, eff) →
        st2.buffer.length < cfg.bufferSize)
    ∧ (∀ st2 tr2 eff, flush cfg now st tr = .ok (st2, tr2, eff) →
        st2.buffer.length < cfg.bufferSize) := by
  constructor
  · intro st2 tr2 eff h
    rw [input_eq] at h
    by_cases hr : reached_limit cfg (inputAppended cfg st p) = true
    · rw [if_pos hr] at h
      have h2 := flush_unsafe_resets cfg now (inputAppended cfg st p) tr st2 tr2 eff h
      rw [h2.1]
      simpa using h1
    · rw [if_neg hr] at h
      simp only [Except.ok.injEq, Prod.mk.injEq] at h
      obtain ⟨hs, _, _⟩ := h
      rw [← hs]
      cases hbl : cfg.byteLimit with
      | none =>
        simp [reached_limit, hbl] at hr
        omega
      | some bl =>
        simp [reached_limit, hbl] at hr
        omega
  · intro st2 tr2 eff h
    have h2 := flush_unsafe_resets cfg now st tr st2 tr2 eff h
    rw [h2.1]
    simpa using h1

/-- Witness for C10: an input that reaches the count threshold on a
one-event buffer returns it to empty, below the threshold. -/
theorem buffer_length_lt_buffer_size_witness :
    ({ store := [[("e", Value.vStr "x"), ("stm", Value.vStr "1000")]],
       buffer := [], bytesQueued := none } : EmitterState).buffer.length
      < (⟨"get", 1, none, false, false⟩ : Config).bufferSize :=
  (buffer_length_lt_buffer_size ⟨"get", 1, none, false, false⟩ 1
      { store := [[("e", Value.vStr "x")]], buffer := [], bytesQueued := none }
      0 [TResp.status 200] (by decide)).1
    { store := [[("e", Value.vStr "x"), ("stm", Value.vStr "1000")]],
      buffer := [], bytesQueued := none }
    [] { requests := [Request.get [("e", Value.vStr "x"), ("stm", Value.vStr "1000")]],
         successCalls := [], failureCalls := [] } rfl

theorem getLoop_reqs_length (store : List Payload) (evts : List Nat) :
    ∀ tr succ fail tr3 reqs,
      getLoop store evts tr = .ok (succ, fail, tr3, reqs) →
      reqs.length = evts.length := by
  induction evts with
  | nil =>
    intro tr succ fail tr3 reqs h
    simp only [getLoop, Except.ok.injEq, Prod.mk.injEq] at h
    obtain ⟨_, _, _, hr⟩ := h
    rw [← hr]
    rfl
  | cons evt rest ih =>
    intro tr succ fail tr3 reqs h
    obtain ⟨⟨s2, f2, t2, r2⟩, h2⟩ := getLoop_isOk store rest (nextResp tr).2
    simp only [getLoop, http_get_eq, h2, Except.ok.injEq, Prod.mk.injEq] at h
    obtain ⟨_, _, _, hr⟩ := h
    rw [← hr]
    simp [ih (nextResp tr).2 s2 f2 t2 r2 h2]

theorem send_events_reqs (cfg : Config) (now : Nat) (store : List Payload)
    (evts : List Nat) (tr : List TResp) (store2 : List Payload)
    (tr2 : List TResp) (eff : Effects)
    (h : send_events cfg now store evts tr = .ok (store2, tr2, eff)) :
    (cfg.method = "post" → eff.requests.length ≤ 1)
    ∧ (cfg.method = "get" → eff.requests.length = evts.length) := by
  by_cases he : 0 < evts.length
  · by_cases hp : cfg.method = "post"
    · simp only [send_events, if_pos he, if_pos hp, http_post_eq,
        Except.ok.injEq, Prod.mk.injEq] at h
      obtain ⟨_, _, h3⟩ := h
      constructor
      · intro _
        rw [← h3]
        simp [routeCallbacks]
      · intro hg
        exact absurd (hp.symm.trans hg) (by decide)
    · by_cases hg : cfg.method = "get"
      · obtain ⟨⟨s2, f2, t2, r2⟩, hout⟩ :=
          getLoop_isOk (attach_sent_timestamp now store evts) evts tr
        simp only [send_events, if_pos he, if_neg hp, if_pos hg, hout,
          Except.ok.injEq, Prod.mk.injEq] at h
        obtain ⟨_, _, h3⟩ := h
        constructor
        · intro hpost
          exact absurd (hg.symm.trans hpost) (by decide)
        · intro _
          rw [← h3]
          simpa [routeCallbacks] using
            getLoop_reqs_length (attach_sent_timestamp now store evts)
              evts tr s2 f2 t2 r2 hout
      · simp only [send_events, if_pos he, if_neg hp, if_neg hg,
          Except.ok.injEq, Prod.mk.injEq] at h
        obtain ⟨_, _, h3⟩ := h
        exact ⟨fun hpost => absurd hpost hp, fun hget => absurd hget hg⟩
  · simp only [send_events, if_neg he, Except.ok.injEq, Prod.mk.injEq] at h
    obtain ⟨_, _, h3⟩ := h
    rw [← h3]
    exact ⟨fun _ => by simp [noEffects], fun _ => by simp [noEffects]; omega⟩

/-- C2: `input` and `flush` never raise, whatever the transport does
(successful statuses, failure statuses, client errors, or an exhausted
oracle): every transport-level error is absorbed inside the HTTP layer.
And there is no automatic retry: a POST flush issues at most one
request, a GET flush exactly one request per buffered event. -/
theorem input_flush_never_raise (cfg : Config) (now : Nat)
    (st : EmitterState) (p : Nat) (tr : List TResp) :
    (input cfg now st p tr).isOk = true
    ∧ (flush cfg now st tr).isOk = true
    ∧ (∀ st2 tr2 eff, flush cfg now st tr = .ok (st2, tr2, eff) →
        (cfg.method = "post" → eff.requests.length ≤ 1)
        ∧ (cfg.method = "get" → eff.requests.length = st.buffer.length)) := by
  refine ⟨?_, ?_, ?_⟩
  · obtain ⟨out, h⟩ := input_isOk cfg now st p tr
    rw [h]
    rfl
  · obtain ⟨out, h⟩ := flush_isOk cfg now st tr
    rw [h]
    rfl
  · intro st2 tr2 eff h
    obtain ⟨⟨s2, t2, e2⟩, hout⟩ := send_events_isOk cfg now st.store st.buffer tr
    rw [flush] at h
    simp only [ flush_unsafe, hout, Except.ok.injEq, Prod.mk.injEq] at h
    obtain ⟨_, _, h3⟩ := h
    rw [← h3]
    exact send_events_reqs cfg now st.store st.buffer tr s2 t2 e2 hout

/-- Witness for C2 on a concrete POST emitter whose only transport
response is a client error: `input` returns normally and the flush
issued exactly one request. -/
theorem input_flush_never_raise_witness :
    (input ⟨"post", 10, none, false, false⟩ 1
        { store := [[("e", Value.vStr "x")]], buffer := [0], bytesQueued := none }
        0 [TResp.clientError]).isOk = true
    ∧ List.length (Effects.requests
        { requests := [Request.post "\x7b\"schema\": \"iglu:com.snowplowanalytics.snowplow/payload_data/jsonschema/1-0-4\", \"data\": [\x7b\"e\": \"x\", \"stm\": \"1000\"\x7d]\x7d"],
          successCalls := [], failureCalls := [] }) ≤ 1 :=
  ⟨(input_flush_never_raise ⟨"post", 10, none, false, false⟩ 1
      { store := [[("e", Value.vStr "x")]], buffer := [0], bytesQueued := none }
      0 [TResp.clientError]).1,
   ((input_flush_never_raise ⟨"post", 10, none, false, false⟩ 1
        { store := [[("e", Value.vStr "x")]], buffer := [0], bytesQueued := none }
        0 [TResp.clientError]).2.2
      { store := [[("e", Value.vStr "x"), ("stm", Value.vStr "1000")]],
        buffer := [], bytesQueued := none }
      []
      { requests := [Request.post "\x7b\"schema\": \"iglu:com.snowplowanalytics.snowplow/payload_data/jsonschema/1-0-4\", \"data\": [\x7b\"e\": \"x\", \"stm\": \"1000\"\x7d]\x7d"],
        successCalls := [], failureCalls := [] } rfl).1 rfl⟩

/-- The flush predicate in the spec's words: byte count at or above the
byte limit (only when a byte limit is configured) OR buffer length at or
above `buffer_size`, evaluated on the post-append values. -/
def specFlushPred (cfg : Config) (newBytes : Option Nat) (newLen : Nat) : Prop :=
  (∃ bl, cfg.byteLimit = some bl ∧ bl ≤ newBytes.getD 0)
  ∨ cfg.bufferSize ≤ newLen

theorem reached_limit_iff (cfg : Config) (st : EmitterState) :
    reached_limit cfg st = true
      ↔ specFlushPred cfg st.bytesQueued st.buffer.length := by
  unfold reached_limit specFlushPred
  cases hbl : cfg.byteLimit with
  | none => simp
  | some bl => simp

theorem inputAppended_len (cfg : Config) (st : EmitterState) (p : Nat) :
    (inputAppended cfg st p).buffer.length = st.buffer.length + 1 := by
  by_cases hp : cfg.method = "post" <;> simp [inputAppended, hp]

theorem inputAppended_buffer_ne_nil (cfg : Config) (st : EmitterState)
    (p : Nat) : (inputAppended cfg st p).buffer ≠ [] := by
  by_cases hp : cfg.method = "post" <;> simp [inputAppended, hp]

/-- C4: after appending, `input` flushes exactly when the configured
byte limit is reached by the new byte count OR the new buffer length
reaches `buffer_size` — in particular a reached byte limit flushes even
below the count threshold; and when neither threshold is reached, no
request and no callback happens and the buffer keeps the appended
event. -/
theorem input_flushes_iff_thresholds (cfg : Config) (now : Nat)
    (st : EmitterState) (p : Nat) (tr : List TResp)
    (st2 : EmitterState) (tr2 : List TResp) (eff : Effects)
    (h : input cfg now st p tr = .ok (st2, tr2, eff)) :
    (st2.buffer = []
      ↔ specFlushPred cfg
          (st.bytesQueued.map (fun b => b + pyDictStrLen (derefPayload st.store p)))
          (st.buffer.length + 1))
    ∧ (¬ specFlushPred cfg
          (st.bytesQueued.map (fun b => b + pyDictStrLen (derefPayload st.store p)))
          (st.buffer.length + 1) →
        st2.buffer.length = st.buffer.length + 1 ∧ eff = noEffects ∧ tr2 = tr) := by
  have hiff := reached_limit_iff cfg (inputAppended cfg st p)
  rw [inputAppended_len] at hiff
  have hbq : (inputAppended cfg st p).bytesQueued
      = st.bytesQueued.map (fun b => b + pyDictStrLen (derefPayload st.store p)) := rfl
  rw [hbq] at hiff
  rw [input_eq] at h
  by_cases hr : reached_limit cfg (inputAppended cfg st p) = true
  · rw [if_pos hr] at h
    have h2 := flush_unsafe_resets cfg now (inputAppended cfg st p) tr st2 tr2 eff h
    exact ⟨⟨fun _ => hiff.mp hr, fun _ => h2.1⟩,
           fun hn => absurd (hiff.mp hr) hn⟩
  · rw [if_neg hr] at h
    simp only [Except.ok.injEq, Prod.mk.injEq] at h
    obtain ⟨hs, ht, he⟩ := h
    rw [← hs]
    refine ⟨⟨fun hb => absurd hb (inputAppended_buffer_ne_nil cfg st p),
             fun hp2 => absurd (hiff.mpr hp2) hr⟩,
            fun _ => ⟨inputAppended_len cfg st p, he.symm, ht.symm⟩⟩

/-- Witness for C4: a byte limit of 5 is reached by one 10-byte payload
while the count threshold 100 is far away, and the input flushes. -/
theorem input_flushes_iff_thresholds_witness :
    input ⟨"get", 100, some 5, false, false⟩ 1
        { store := [[("e", Value.vStr "x")]], buffer := [], bytesQueued := some 0 }
        0 []
      = .ok ({ store := [[("e", Value.vStr "x"), ("stm", Value.vStr "1000")]],
               buffer := [], bytesQueued := some 0 }, [],
             { requests := [Request.get
                 [("e", Value.vStr "x"), ("stm", Value.vStr "1000")]],
               successCalls := [], failureCalls := [] })
    ∧ (({ store := [[("e", Value.vStr "x"), ("stm", Value.vStr "1000")]],
          buffer := [], bytesQueued := some 0 } : EmitterState).buffer = []
        ↔ specFlushPred ⟨"get", 100, some 5, false, false⟩
            ((some 0).map (fun b => b + pyDictStrLen
              (derefPayload [[("e", Value.vStr "x")]] 0)))
            (List.length ([] : List Nat) + 1)) :=
  ⟨rfl,
   (input_flushes_iff_thresholds ⟨"get", 100, some 5, false, false⟩ 1
      { store := [[("e", Value.vStr "x")]], buffer := [], bytesQueued := some 0 }
      0 []
      { store := [[("e", Value.vStr "x"), ("stm", Value.vStr "1000")]],
        buffer := [], bytesQueued := some 0 }
      []
      { requests := [Request.get
          [("e", Value.vStr "x"), ("stm", Value.vStr "1000")]],
        successCalls := [], failureCalls := [] } rfl).1⟩

theorem dictLookup_dictUpdate (d : Payload) (k : String) (v : Value) :
    dictLookup (dictUpdate d k v) k = some v := by
  induction d with
  | nil => simp [dictUpdate, dictLookup]
  | cons kv rest ih =>
    by_cases ha : (kv :: rest).any (fun x => x.1 = k)
    · rw [dictUpdate, if_pos ha]
      by_cases hk : kv.1 = k
      · simp [dictLookup, hk]
      · have ha2 : rest.any (fun x => x.1 = k) := by
          simp only [List.any_cons, Bool.or_eq_true, decide_eq_true_eq] at ha
          rcases ha with h1 | h2
          · exact absurd h1 hk
          · exact h2
        have ih2 := ih
        rw [dictUpdate, if_pos ha2] at ih2
        simpa [dictLookup, hk] using ih2
    · rw [dictUpdate, if_neg ha]
      have hk : ¬ kv.1 = k := by
        intro hh
        exact ha (by simp [List.any_cons, hh])
      have ha2 : ¬ rest.any (fun x => x.1 = k) = true := by
        intro hh
        exact ha (by simp [List.any_cons, hh])
      have ih2 := ih
      rw [dictUpdate, if_neg ha2] at ih2
      simpa [dictLookup, hk] using ih2

theorem attachOne_length (now : Nat) (store : List Payload) (r : Nat) :
    (attachOne now store r).length = store.length := by
  simp [attachOne]

theorem derefPayload_set_self (store : List Payload) (r : Nat) (d : Payload)
    (h : r < store.length) : derefPayload (store.set r d) r = d := by
  simp [derefPayload, List.getD, List.getElem?_set_self, h]

theorem derefPayload_set_ne (store : List Payload) (r r2 : Nat) (d : Payload)
    (h : r ≠ r2) : derefPayload (store.set r2 d) r = derefPayload store r := by
  simp [derefPayload, List.getD, List.getElem?_set_ne (Ne.symm h)]

theorem attachOne_lookup_self (now : Nat) (store : List Payload) (r : Nat)
    (h : r < store.length) :
    dictLookup (derefPayload (attachOne now store r) r) "stm"
      = some (stmValue now) := by
  rw [attachOne, derefPayload_set_self store r _ h, dictLookup_dictUpdate]

theorem attachOne_deref_other (now : Nat) (store : List Payload) (r evt : Nat)
    (h : r ≠ evt) :
    derefPayload (attachOne now store evt) r = derefPayload store r := by
  rw [attachOne]
  exact derefPayload_set_ne store r evt _ h

theorem attach_lookup_aux (now : Nat) (evts : List Nat) :
    ∀ store r, r < store.length →
      (r ∈ evts ∨ dictLookup (derefPayload store r) "stm" = some (stmValue now)) →
      dictLookup (derefPayload (attach_sent_timestamp now store evts) r) "stm"
        = some (stmValue now) := by
  induction evts with
  | nil =>
    intro store r _ hmem
    rcases hmem with hm | hs
    · simp at hm
    · exact hs
  | cons evt rest ih =>
    intro store r hr hmem
    have hr2 : r < (attachOne now store evt).length := by
      rw [attachOne_length]
      exact hr
    show dictLookup (derefPayload
      (attach_sent_timestamp now (attachOne now store evt) rest) r) "stm" = _
    apply ih (attachOne now store evt) r hr2
    rcases hmem with hm | hs
    · rcases List.mem_cons.mp hm with h1 | h2
      · subst h1
        exact Or.inr (attachOne_lookup_self now store r hr)
      · exact Or.inl h2
    · by_cases heq : r = evt
      · subst heq
        exact Or.inr (attachOne_lookup_self now store r hr)
      · exact Or.inr (by rw [attachOne_deref_other now store r evt heq]; exact hs)

/-- After `attach_sent_timestamp`, every event of the batch (by its
reference) carries the `stm` field with the send-time value. -/
theorem attach_sets_stm (now : Nat) (store : List Payload) (evts : List Nat)
    (r : Nat) (hr : r < store.length) (hm : r ∈ evts) :
    dictLookup (derefPayload (attach_sent_timestamp now store evts) r) "stm"
      = some (stmValue now) :=
  attach_lookup_aux now evts store r hr (Or.inl hm)

/-- `attach_sent_timestamp` mutates only the dictionaries of the batch:
any reference outside the batch is untouched. -/
theorem attach_frame (now : Nat) (evts : List Nat) :
    ∀ store r, r ∉ evts →
      derefPayload (attach_sent_timestamp now store evts) r
        = derefPayload store r := by
  induction evts with
  | nil => intro store r _; rfl
  | cons evt rest ih =>
    intro store r hm
    have h1 : r ≠ evt := fun hh => hm (hh ▸ List.mem_cons_self evt rest)
    have h2 : r ∉ rest := fun hh => hm (List.mem_cons_of_mem evt hh)
    show derefPayload (attach_sent_timestamp now (attachOne now store evt) rest) r = _
    rw [ih (attachOne now store evt) r h2]
    exact attachOne_deref_other now store r evt h1

theorem send_events_store (cfg : Config) (now : Nat) (store : List Payload)
    (evts : List Nat) (tr : List TResp) (store2 : List Payload)
    (tr2 : List TResp) (eff : Effects)
    (h : send_events cfg now store evts tr = .ok (store2, tr2, eff)) :
    store2 = if 0 < evts.length
             then attach_sent_timestamp now store evts else store := by
  by_cases he : 0 < evts.length
  · rw [if_pos he]
    by_cases hp : cfg.method = "post"
    · simp only [send_events, if_pos he, if_pos hp, http_post_eq,
        Except.ok.injEq, Prod.mk.injEq] at h
      exact h.1.symm
    · by_cases hg : cfg.method = "get"
      · obtain ⟨⟨s2, f2, t2, r2⟩, hout⟩ :=
          getLoop_isOk (attach_sent_timestamp now store evts) evts tr
        simp only [send_events, if_pos he, if_neg hp, if_pos hg, hout,
          Except.ok.injEq, Prod.mk.injEq] at h
        exact h.1.symm
      · simp only [send_events, if_pos he, if_neg hp, if_neg hg,
          Except.ok.injEq, Prod.mk.injEq] at h
        exact h.1.symm
  · rw [if_neg he]
    simp only [send_events, if_neg he, Except.ok.injEq, Prod.mk.injEq] at h
    exact h.1.symm

theorem flush_store (cfg : Config) (now : Nat) (st : EmitterState)
    (tr : List TResp) (st2 : EmitterState) (tr2 : List TResp) (eff : Effects)
    (h : flush cfg now st tr = .ok (st2, tr2, eff)) :
    st2.store = if 0 < st.buffer.length
                then attach_sent_timestamp now st.store st.buffer
                else st.store := by
  obtain ⟨⟨s2, t2, e2⟩, hout⟩ := send_events_isOk cfg now st.store st.buffer tr
  rw [flush] at h
  simp only [ flush_unsafe, hout, Except.ok.injEq, Prod.mk.injEq] at h
  obtain ⟨h1, _, _⟩ := h
  rw [← h1]
  exact send_events_store cfg now st.store st.buffer tr s2 t2 e2 hout

/-- Whether a payload value is an integer value. -/
def isIntValue : Value → Bool
  | .vInt _ => true
  | .vStr _ => false

/-- C3 counterexample: at whole-second send time 5, the `stm` field
attached to the payload holds the string "5000" — a string, not an
integer as the claim states. -/
theorem attach_stm_not_integer_counterexample :
    dictLookup (derefPayload
        (attach_sent_timestamp 5 [[("e", Value.vStr "pv")]] [0]) 0) "stm"
      = some (Value.vStr "5000")
    ∧ (dictLookup (derefPayload
        (attach_sent_timestamp 5 [[("e", Value.vStr "pv")]] [0]) 0) "stm").map
          isIntValue = some false := ⟨rfl, rfl⟩

/-- C3 amended: for every non-empty batch being flushed, before dispatch
a field `stm` holding the send time in milliseconds since epoch (the
whole-second clock reading times 1000) as the decimal string of that
integer is attached to every payload in the batch by in-place
mutation. -/
theorem flush_attaches_stm (cfg : Config) (now : Nat) (st : EmitterState)
    (tr : List TResp) (st2 : EmitterState) (tr2 : List TResp) (eff : Effects)
    (h : flush cfg now st tr = .ok (st2, tr2, eff)) (r : Nat)
    (hr : r ∈ st.buffer) (hlen : r < st.store.length) :
    dictLookup (derefPayload st2.store r) "stm"
      = some (Value.vStr (toString (now * 1000))) := by
  have hs := flush_store cfg now st tr st2 tr2 eff h
  have hne : 0 < st.buffer.length := List.length_pos.mpr (by
    intro hh
    rw [hh] at hr
    simp at hr)
  rw [hs, if_pos hne]
  exact attach_sets_stm now st.store st.buffer r hlen hr

/-- Witness for the amended C3 on a concrete one-event GET flush at
send time 2. -/
theorem flush_attaches_stm_witness :
    dictLookup (derefPayload
        [[("e", Value.vStr "x"), ("stm", Value.vStr "2000")]] 0) "stm"
      = some (Value.vStr (toString (2 * 1000))) :=
  flush_attaches_stm ⟨"get", 1, none, false, false⟩ 2
    { store := [[("e", Value.vStr "x")]], buffer := [0], bytesQueued := none }
    [TResp.status 200]
    { store := [[("e", Value.vStr "x"), ("stm", Value.vStr "2000")]],
      buffer := [], bytesQueued := none }
    [] { requests := [Request.get [("e", Value.vStr "x"), ("stm", Value.vStr "2000")]],
         successCalls := [], failureCalls := [] }
    rfl 0 (by simp) (by simp)

theorem derefPayload_append_lt (store store2 : List Payload) (p : Nat)
    (h : p < store.length) :
    derefPayload (store ++ store2) p = derefPayload store p := by
  simp [derefPayload, List.getD, List.getElem?_append, h]

theorem derefPayload_concat_length (store : List Payload) (d : Payload) :
    derefPayload (store ++ [d]) store.length = d := by
  simp [derefPayload, List.getD, List.getElem?_concat_length]

/-- C5: a GET-mode flush of a non-empty buffer issues exactly one GET
request per buffered event, sequentially in batch order with no early
exit on failure; each response is classified independently by the
status rule; the success callback (when registered and some event
succeeded) receives exactly the successful payloads and the failure
callback (when registered and some event failed) receives the success
count and the list of unsent payloads. -/
theorem get_flush_per_event (cfg : Config) (now : Nat) (st : EmitterState)
    (tr : List TResp) (st2 : EmitterState) (tr2 : List TResp) (eff : Effects)
    (hm : cfg.method = "get") (hlen : tr.length = st.buffer.length)
    (hne : 0 < st.buffer.length)
    (h : flush cfg now st tr = .ok (st2, tr2, eff)) :
    eff.requests = st.buffer.map (fun r => Request.get
      (derefPayload (attach_sent_timestamp now st.store st.buffer) r))
    ∧ eff.successCalls =
        (if cfg.hasOnSuccess ∧ 0 < (succRefs st.buffer tr).length
         then [(succRefs st.buffer tr).map
                (derefPayload (attach_sent_timestamp now st.store st.buffer))]
         else [])
    ∧ eff.failureCalls =
        (if cfg.hasOnFailure ∧ 0 < (failRefs st.buffer tr).length
         then [((succRefs st.buffer tr).length,
                FailureArg.eventList ((failRefs st.buffer tr).map
                  (derefPayload (attach_sent_timestamp now st.store st.buffer))))]
         else []) := by
  have hpost : ¬ cfg.method = "post" := by
    rw [hm]
    decide
  have hgl := getLoop_eq (attach_sent_timestamp now st.store st.buffer)
    st.buffer tr hlen
  rw [flush] at h
  simp only [ flush_unsafe, send_events, if_pos hne, if_neg hpost, if_pos hm,
    hgl, Except.ok.injEq, Prod.mk.injEq] at h
  obtain ⟨_, _, h3⟩ := h
  rw [← h3]
  exact ⟨rfl, rfl, rfl⟩

/-- Witness for C5: the spec's two-event example — request 1 succeeds,
request 2 fails; on-success gets `[event1]`, on-failure `(1, [event2])`. -/
theorem get_flush_per_event_witness :
    ({ requests := [Request.get [("e", Value.vStr "pv1"), ("stm", Value.vStr "1000")],
                    Request.get [("e", Value.vStr "pv2"), ("stm", Value.vStr "1000")]],
       successCalls := [[[("e", Value.vStr "pv1"), ("stm", Value.vStr "1000")]]],
       failureCalls := [(1, FailureArg.eventList
         [[("e", Value.vStr "pv2"), ("stm", Value.vStr "1000")]])] } : Effects).successCalls
      = (if (⟨"get", 10, none, true, true⟩ : Config).hasOnSuccess
            ∧ 0 < (succRefs [0, 1] [TResp.status 200, TResp.status 404]).length
         then [(succRefs [0, 1] [TResp.status 200, TResp.status 404]).map
                (derefPayload (attach_sent_timestamp 1
                  [[("e", Value.vStr "pv1")], [("e", Value.vStr "pv2")]] [0, 1]))]
         else []) :=
  (get_flush_per_event ⟨"get", 10, none, true, true⟩ 1
    { store := [[("e", Value.vStr "pv1")], [("e", Value.vStr "pv2")]],
      buffer := [0, 1], bytesQueued := none }
    [TResp.status 200, TResp.status 404]
    { store := [[("e", Value.vStr "pv1"), ("stm", Value.vStr "1000")],
                [("e", Value.vStr "pv2"), ("stm", Value.vStr "1000")]],
      buffer := [], bytesQueued := none }
    []
    { requests := [Request.get [("e", Value.vStr "pv1"), ("stm", Value.vStr "1000")],
                   Request.get [("e", Value.vStr "pv2"), ("stm", Value.vStr "1000")]],
      successCalls := [[[("e", Value.vStr "pv1"), ("stm", Value.vStr "1000")]]],
      failureCalls := [(1, FailureArg.eventList
        [[("e", Value.vStr "pv2"), ("stm", Value.vStr "1000")]])] }
    rfl rfl (by decide) rfl).2.1

/-- C9: in POST mode `input` buffers a fresh stringified copy at a fresh
reference and the caller's dictionary is never mutated by the emitter —
`stm` lands on the buffered copy; in GET mode the caller's dictionary
itself is buffered and it is the one mutated in place with `stm` at
flush time. -/
theorem post_copies_get_aliases (cfg : Config) (now : Nat) (st : EmitterState)
    (p : Nat) (tr : List TResp) :
    (∀ st2 tr2 eff, cfg.method = "post" → p < st.store.length →
       p ∉ st.buffer → input cfg now st p tr = .ok (st2, tr2, eff) →
       derefPayload st2.store p = derefPayload st.store p
       ∧ (reached_limit cfg (inputAppended cfg st p) = false →
           st2.buffer = st.buffer ++ [st.store.length]
           ∧ derefPayload st2.store st.store.length
             = stringifyDict (derefPayload st.store p)))
    ∧ (∀ st2 tr2 eff, cfg.method = "get" →
       reached_limit cfg (inputAppended cfg st p) = false →
       input cfg now st p tr = .ok (st2, tr2, eff) →
       st2.buffer = st.buffer ++ [p] ∧ st2.store = st.store)
    ∧ (∀ st2 tr2 eff, cfg.method = "get" → p ∈ st.buffer →
       p < st.store.length → flush cfg now st tr = .ok (st2, tr2, eff) →
       dictLookup (derefPayload st2.store p) "stm" = some (stmValue now)) := by
  refine ⟨?_, ?_, ?_⟩
  · intro st2 tr2 eff hm hp hnb h
    rw [input_eq] at h
    have happ : inputAppended cfg st p
        = { store := st.store ++ [stringifyDict (derefPayload st.store p)],
            buffer := st.buffer ++ [st.store.length],
            bytesQueued := st.bytesQueued.map
              (fun b => b + pyDictStrLen (derefPayload st.store p)) } := by
      simp [inputAppended, hm]
    by_cases hr : reached_limit cfg (inputAppended cfg st p) = true
    · rw [if_pos hr] at h
      have hs := flush_store cfg now (inputAppended cfg st p) tr st2 tr2 eff h
      have hnb2 : p ∉ (inputAppended cfg st p).buffer := by
        rw [happ]
        intro hmem
        rcases List.mem_append.mp hmem with h1 | h2
        · exact hnb h1
        · rw [List.mem_singleton] at h2
          exact absurd h2 (Nat.ne_of_lt hp)
      constructor
      · rw [hs]
        by_cases hl : 0 < (inputAppended cfg st p).buffer.length
        · rw [if_pos hl, attach_frame now (inputAppended cfg st p).buffer
            (inputAppended cfg st p).store p hnb2, happ]
          exact derefPayload_append_lt st.store _ p hp
        · rw [if_neg hl, happ]
          exact derefPayload_append_lt st.store _ p hp
      · intro hr2
        rw [hr2] at hr
        exact absurd hr (by decide)
    · rw [if_neg hr] at h
      simp only [Except.ok.injEq, Prod.mk.injEq] at h
      obtain ⟨hs, _, _⟩ := h
      rw [← hs, happ]
      refine ⟨derefPayload_append_lt st.store _ p hp, fun _ => ⟨rfl, ?_⟩⟩
      exact derefPayload_concat_length st.store _
  · intro st2 tr2 eff hm hr h
    have hpost : ¬ cfg.method = "post" := by
      rw [hm]
      decide
    rw [input_eq, if_neg (by rw [hr]; decide)] at h
    simp only [Except.ok.injEq, Prod.mk.injEq] at h
    obtain ⟨hs, _, _⟩ := h
    rw [← hs]
    constructor <;> simp [inputAppended, hpost]
  · intro st2 tr2 eff hm hmem hp h
    have hs := flush_store cfg now st tr st2 tr2 eff h
    have hne : 0 < st.buffer.length := List.length_pos.mpr (by
      intro hh
      rw [hh] at hmem
      simp at hmem)
    rw [hs, if_pos hne]
    exact attach_sets_stm now st.store st.buffer p hp hmem

/-- Witness for C9: a concrete POST input buffers a stringified copy at
a fresh reference and leaves the caller's dictionary untouched. -/
theorem post_copies_get_aliases_witness :
    derefPayload [[("e", Value.vInt 7)], [("e", Value.vStr "7")]] 0
      = derefPayload [[("e", Value.vInt 7)]] 0
    ∧ (reached_limit ⟨"post", 10, none, false, false⟩
         (inputAppended ⟨"post", 10, none, false, false⟩
           { store := [[("e", Value.vInt 7)]], buffer := [],
             bytesQueued := none } 0) = false →
       ([1] : List Nat) = [] ++ [List.length [[("e", Value.vInt 7)]]]
       ∧ derefPayload [[("e", Value.vInt 7)], [("e", Value.vStr "7")]]
           (List.length [[("e", Value.vInt 7)]])
         = stringifyDict (derefPayload [[("e", Value.vInt 7)]] 0)) :=
  (post_copies_get_aliases ⟨"post", 10, none, false, false⟩ 1
      { store := [[("e", Value.vInt 7)]], buffer := [], bytesQueued := none }
      0 []).1
    { store := [[("e", Value.vInt 7)], [("e", Value.vStr "7")]],
      buffer := [1], bytesQueued := none }
    [] noEffects rfl (by decide) (by simp) rfl

/-- C1: evaluated at a 3-event POST batch whose single request returns
status 500, the code invokes the failure callback with success count 0
and — as its second argument — the list of the event payload
dictionaries, not the JSON-serialized self-describing batch envelope
that the spec (and the constructor docstring) promises; the success
callback is not invoked. -/
theorem post_failure_callback_gets_event_list :
    flush ⟨"post", 10, none, true, true⟩ 1
        { store := [[("e", Value.vStr "pv1")], [("e", Value.vStr "pv2")],
                    [("e", Value.vStr "pv3")]],
          buffer := [0, 1, 2], bytesQueued := none }
        [TResp.status 500]
      = .ok ({ store := [[("e", Value.vStr "pv1"), ("stm", Value.vStr "1000")],
                         [("e", Value.vStr "pv2"), ("stm", Value.vStr "1000")],
                         [("e", Value.vStr "pv3"), ("stm", Value.vStr "1000")]],
               buffer := [], bytesQueued := none }, [],
             { requests := [Request.post "\x7b\"schema\": \"iglu:com.snowplowanalytics.snowplow/payload_data/jsonschema/1-0-4\", \"data\": [\x7b\"e\": \"pv1\", \"stm\": \"1000\"\x7d, \x7b\"e\": \"pv2\", \"stm\": \"1000\"\x7d, \x7b\"e\": \"pv3\", \"stm\": \"1000\"\x7d]\x7d"],
               successCalls := [],
               failureCalls := [(0, FailureArg.eventList
                 [[("e", Value.vStr "pv1"), ("stm", Value.vStr "1000")],
                  [("e", Value.vStr "pv2"), ("stm", Value.vStr "1000")],
                  [("e", Value.vStr "pv3"), ("stm", Value.vStr "1000")]])] })
    ∧ FailureArg.eventList
        [[("e", Value.vStr "pv1"), ("stm", Value.vStr "1000")],
         [("e", Value.vStr "pv2"), ("stm", Value.vStr "1000")],
         [("e", Value.vStr "pv3"), ("stm", Value.vStr "1000")]]
      ≠ FailureArg.strForm (selfDescribingJsonToString PAYLOAD_DATA_SCHEMA
          [[("e", Value.vStr "pv1"), ("stm", Value.vStr "1000")],
           [("e", Value.vStr "pv2"), ("stm", Value.vStr "1000")],
           [("e", Value.vStr "pv3"), ("stm", Value.vStr "1000")]]) :=
  ⟨rfl, by decide⟩

end Snowplow
